import Mathlib

/-!
Verification of the Tauri command handlers in
`src/desktop/src-tauri/src/main.rs` (greet, check_api_health,
open_output_folder, get_platform_info).

External effects are embedded as explicit inputs:
the outcome of the HTTP GET is an `HttpOutcome` value, the outcome of a
process spawn is given by a `spawn` oracle, and the compile-time target
OS is a `TargetOS` parameter.  `open_output_folder` additionally returns
the list of (command, argument) pairs it passed to `spawn`, so that
claims about which processes are launched can be stated.
-/

/-- `greet` from main.rs:
`format!("Hello, {}! Welcome to ResumeAI Desktop!", name)`. -/
def greet (name : String) : String :=
  "Hello, " ++ name ++ "! Welcome to ResumeAI Desktop!"

/-- Outcome of `client.get(&url).send().await`: either a response with a
numeric status code, or a transport-level error whose `to_string()` is
`desc`. -/
inductive HttpOutcome where
  | response (status : Nat)
  | transportError (desc : String)

/-- Modelled from the spec: `response.status().is_success()` from the http
crate used by reqwest (not part of src/) holds exactly for the success
range 200–299. -/
def is_success (status : Nat) : Bool :=
  200 ≤ status && status < 300

/-- `check_api_health` from main.rs, with the result of the HTTP send as
input: on a response, `Ok(true)` if `status().is_success()` else
`Ok(false)`; on a send error `e`, `Err(e.to_string())`. -/
def check_api_health (outcome : HttpOutcome) : Except String Bool :=
  match outcome with
  | .response status =>
      if is_success status then Except.ok true else Except.ok false
  | .transportError desc => Except.error desc

/-- Compile-time target OS selected by the `#[cfg(target_os = ...)]`
attributes in main.rs. `other` is any target that is none of the three. -/
inductive TargetOS where
  | windows
  | macos
  | linux
  | other
deriving DecidableEq

/-- Outcome of `std::process::Command::new(cmd).arg(&path).spawn()`:
either the child was spawned, or spawning failed with an error whose
`to_string()` is `desc`. -/
inductive SpawnResult where
  | spawned
  | failed (desc : String)
deriving DecidableEq

/-- `open_output_folder` from main.rs.  Exactly one of the three
`#[cfg(target_os = ...)]` blocks is compiled in (none on `other`
targets); the compiled-in block spawns its fixed launcher command with
`path` as the sole argument, propagating a spawn error via
`.map_err(|e| e.to_string())?`, and the function then falls through to
`Ok(())`.  The second component records every (command, argument) pair
passed to `spawn`. -/
def open_output_folder (os : TargetOS) (spawn : String → String → SpawnResult)
    (path : String) : Except String Unit × List (String × String) :=
  match os with
  | .windows =>
      match spawn "explorer" path with
      | .spawned => (Except.ok (), [("explorer", path)])
      | .failed desc => (Except.error desc, [("explorer", path)])
  | .macos =>
      match spawn "open" path with
      | .spawned => (Except.ok (), [("open", path)])
      | .failed desc => (Except.error desc, [("open", path)])
  | .linux =>
      match spawn "xdg-open" path with
      | .spawned => (Except.ok (), [("xdg-open", path)])
      | .failed desc => (Except.error desc, [("xdg-open", path)])
  | .other => (Except.ok (), [])

/-- The fixed launcher command compiled in for each build target
(`explorer` on Windows, `open` on macOS, `xdg-open` on Linux, none
otherwise). -/
def launcherCmd : TargetOS → Option String
  | .windows => some "explorer"
  | .macos => some "open"
  | .linux => some "xdg-open"
  | .other => none

/-- The constants `std::env::consts::{OS, ARCH, FAMILY}` of a build. -/
structure EnvConsts where
  OS : String
  ARCH : String
  FAMILY : String
deriving DecidableEq

/-- The three-field record built by the `json!` macro in
`get_platform_info`. -/
structure PlatformInfo where
  os : String
  arch : String
  family : String
deriving DecidableEq

/-- `get_platform_info` from main.rs: reads the three
`std::env::consts` values of the build into the record. -/
def get_platform_info (c : EnvConsts) : PlatformInfo :=
  { os := c.OS, arch := c.ARCH, family := c.FAMILY }

/-- Modelled from the spec: the `std::env::consts` values of a 64-bit
Linux build (`x86_64-unknown-linux-gnu`), which are not part of src/. -/
def linuxX64Consts : EnvConsts :=
  { OS := "linux", ARCH := "x86_64", FAMILY := "unix" }

/-- C1: when the HTTP GET completes with a response, `check_api_health`
returns `Ok(true)` if and only if the status code is in 200–299, and
`Ok(false)` for every other status code; codes outside 2xx are not
distinguished from one another. -/
theorem check_api_health_status_boundary (s : Nat) :
    (check_api_health (HttpOutcome.response s) = Except.ok true ↔
      (200 ≤ s ∧ s ≤ 299)) ∧
    (check_api_health (HttpOutcome.response s) = Except.ok false ↔
      ¬ (200 ≤ s ∧ s ≤ 299)) := by
  have hiff : is_success s = true ↔ (200 ≤ s ∧ s ≤ 299) := by
    simp only [is_success, Bool.and_eq_true, decide_eq_true_eq]
    omega
  by_cases h : is_success s = true
  · have hr := hiff.mp h
    simp [check_api_health, h, hr]
  · have hr : ¬ (200 ≤ s ∧ s ≤ 299) := fun hx => h (hiff.mpr hx)
    simp [check_api_health, h, hr]

/-- C2 counterexample: on a transport failure with description
"connection refused", `check_api_health` returns the bare description,
not a string of the form "operation failed: <description>". -/
theorem check_api_health_error_not_prefixed :
    check_api_health (HttpOutcome.transportError "connection refused") ≠
      Except.error ("operation failed: " ++ "connection refused") := by
  simp [check_api_health]

/-- C2 (amended): for every failing operation (transport failure in
`check_api_health`, spawn failure in `open_output_folder`), the error
value returned to the caller is a single string equal to the underlying
failure's description, with no "operation failed: " prefix added. -/
theorem failing_operation_error_is_description (desc : String) :
    check_api_health (HttpOutcome.transportError desc) = Except.error desc ∧
    ∀ (os : TargetOS) (cmd : String) (spawn : String → String → SpawnResult)
      (path : String), launcherCmd os = some cmd →
        spawn cmd path = SpawnResult.failed desc →
        (open_output_folder os spawn path).1 = Except.error desc := by
  refine ⟨rfl, ?_⟩
  intro os cmd spawn path hcmd hsp
  cases os <;> simp only [launcherCmd, Option.some.injEq,
    reduceCtorEq] at hcmd <;> subst hcmd <;>
    simp [open_output_folder, hsp]

/-- Witness for C2 (amended) at a concrete spawn failure on Linux. -/
theorem failing_operation_error_is_description_witness :
    (open_output_folder TargetOS.linux
        (fun _ _ => SpawnResult.failed "no such file or directory")
        "/tmp/output").1 =
      Except.error "no such file or directory" :=
  (failing_operation_error_is_description "no such file or directory").2
    TargetOS.linux "xdg-open"
    (fun _ _ => SpawnResult.failed "no such file or directory")
    "/tmp/output" rfl rfl

/-- C3: on every target with a compiled-in launcher, `open_output_folder`
returns an error exactly when the spawn call fails, and returns unit
success whenever the spawn succeeds; the path is never validated. -/
theorem open_output_folder_error_iff_spawn_failure
    (os : TargetOS) (cmd : String) (spawn : String → String → SpawnResult)
    (path : String) (hcmd : launcherCmd os = some cmd) :
    ((open_output_folder os spawn path).1 = Except.ok () ↔
      spawn cmd path = SpawnResult.spawned) ∧
    (∀ desc, (open_output_folder os spawn path).1 = Except.error desc ↔
      spawn cmd path = SpawnResult.failed desc) := by
  cases os <;> simp only [launcherCmd, Option.some.injEq,
    reduceCtorEq] at hcmd <;> subst hcmd
  · cases hs : spawn "explorer" path <;> simp [open_output_folder, hs]
  · cases hs : spawn "open" path <;> simp [open_output_folder, hs]
  · cases hs : spawn "xdg-open" path <;> simp [open_output_folder, hs]

/-- Witness for C3: on Windows with a spawn that always succeeds and a
path to a directory that does not exist, the call reports success. -/
theorem open_output_folder_error_iff_spawn_failure_witness :
    launcherCmd TargetOS.windows = some "explorer" ∧
    ((open_output_folder TargetOS.windows (fun _ _ => SpawnResult.spawned)
        "C:/no/such/dir").1 = Except.ok () ↔
      (fun (_ _ : String) => SpawnResult.spawned) "explorer" "C:/no/such/dir" =
        SpawnResult.spawned) :=
  ⟨rfl, (open_output_folder_error_iff_spawn_failure TargetOS.windows "explorer"
    (fun _ _ => SpawnResult.spawned) "C:/no/such/dir" rfl).1⟩

/-- C4: each build target compiles in exactly one of the three fixed
launcher commands (`explorer` on Windows, `open` on macOS, `xdg-open` on
Linux); on such a target `open_output_folder` spawns that command exactly
once, with the caller-supplied path as its sole argument, and its result
is determined by that single spawn with no fallback chain. -/
theorem open_output_folder_single_fixed_spawn :
    (launcherCmd TargetOS.windows = some "explorer" ∧
     launcherCmd TargetOS.macos = some "open" ∧
     launcherCmd TargetOS.linux = some "xdg-open") ∧
    ∀ (os : TargetOS) (cmd : String) (spawn : String → String → SpawnResult)
      (path : String), launcherCmd os = some cmd →
        (open_output_folder os spawn path).2 = [(cmd, path)] ∧
        (open_output_folder os spawn path).1 =
          (match spawn cmd path with
           | SpawnResult.spawned => Except.ok ()
           | SpawnResult.failed desc => Except.error desc) := by
  refine ⟨⟨rfl, rfl, rfl⟩, ?_⟩
  intro os cmd spawn path hcmd
  cases os <;> simp only [launcherCmd, Option.some.injEq,
    reduceCtorEq] at hcmd <;> subst hcmd
  · cases hs : spawn "explorer" path <;> simp [open_output_folder, hs]
  · cases hs : spawn "open" path <;> simp [open_output_folder, hs]
  · cases hs : spawn "xdg-open" path <;> simp [open_output_folder, hs]

/-- Witness for C4: on macOS, a successful call spawns exactly
`open <path>` and nothing else. -/
theorem open_output_folder_single_fixed_spawn_witness :
    launcherCmd TargetOS.macos = some "open" ∧
    (open_output_folder TargetOS.macos (fun _ _ => SpawnResult.spawned)
        "/Users/a/out").2 = [("open", "/Users/a/out")] :=
  ⟨rfl, ((open_output_folder_single_fixed_spawn).2 TargetOS.macos "open"
    (fun _ _ => SpawnResult.spawned) "/Users/a/out" rfl).1⟩

/-- C5: `greet name` is exactly
"Hello, " ++ name ++ "! Welcome to ResumeAI Desktop!", and in particular
`greet "Ava"` is "Hello, Ava! Welcome to ResumeAI Desktop!". -/
theorem greet_format :
    (∀ name : String,
      greet name = "Hello, " ++ name ++ "! Welcome to ResumeAI Desktop!") ∧
    greet "Ava" = "Hello, Ava! Welcome to ResumeAI Desktop!" :=
  ⟨fun _ => rfl, rfl⟩

/-- C6: when the HTTP GET fails at the transport level,
`check_api_health` returns the error string derived from the underlying
failure's description, and never a boolean. -/
theorem check_api_health_transport_error (desc : String) :
    check_api_health (HttpOutcome.transportError desc) = Except.error desc ∧
    (check_api_health (HttpOutcome.transportError desc)).isOk = false :=
  ⟨rfl, rfl⟩

/-- C7: `get_platform_info` is a total deterministic function of the
build constants alone: any two calls within one process lifetime (same
`EnvConsts`) return the same os/arch/family triple. -/
theorem get_platform_info_deterministic (c : EnvConsts)
    (r₁ r₂ : PlatformInfo) (h₁ : r₁ = get_platform_info c)
    (h₂ : r₂ = get_platform_info c) :
    r₁ = r₂ ∧ r₁ = ⟨c.OS, c.ARCH, c.FAMILY⟩ := by
  subst h₁
  subst h₂
  exact ⟨rfl, rfl⟩

/-- Witness for C7: two calls on the 64-bit Linux build agree. -/
theorem get_platform_info_deterministic_witness :
    get_platform_info linuxX64Consts = get_platform_info linuxX64Consts ∧
    get_platform_info linuxX64Consts = ⟨"linux", "x86_64", "unix"⟩ :=
  get_platform_info_deterministic linuxX64Consts
    (get_platform_info linuxX64Consts) (get_platform_info linuxX64Consts)
    rfl rfl

/-- C8: `greet name` contains the exact name as a substring (as a
contiguous run of characters), and `greet` is a total function. -/
theorem greet_contains_name (name : String) :
    ∃ pre suff : List Char,
      (greet name).data = pre ++ name.data ++ suff :=
  ⟨("Hello, ").data, ("! Welcome to ResumeAI Desktop!").data, rfl⟩

/-- C9: on a 64-bit Linux build, `get_platform_info` returns the record
with os "linux", arch "x86_64", family "unix". -/
theorem get_platform_info_linux_x64 :
    get_platform_info linuxX64Consts = ⟨"linux", "x86_64", "unix"⟩ := rfl

/-- C10: on a build target that is none of Windows, macOS or Linux, all
three spawn blocks are compiled out: `open_output_folder` spawns nothing
and returns unit success for every path. -/
theorem open_output_folder_other_target
    (spawn : String → String → SpawnResult) (path : String) :
    open_output_folder TargetOS.other spawn path = (Except.ok (), []) := rfl
